import Mathlib

/-!
Verification development for the CLOS orchestrator bootstrap core
(clos/orchestrator/app.py and clos/orchestrator/config.py).

The embedding covers:
- the lifespan manager of app.py (startup and shutdown of the database,
  the Redis cache and the agent pool) as a trace semantics over an oracle
  that says which start and stop calls succeed;
- the configuration model of config.py (the Settings class, its field
  defaults, the required fields and the three validators) as an explicit
  construction function over an environment input record;
- the middleware registration sequence of create_app and the resulting
  execution order;
- the global exception handler of create_app.
-/

namespace Clos

/-! ## Resource lifecycle (app.py, lifespan) -/

/-- The three dependent resources started by the lifespan manager:
the database, the Redis cache and the agent pool. -/
inductive Res where
  | db
  | redis
  | agentPool
deriving DecidableEq

/-- An awaited lifecycle call in the lifespan body: the start or the stop
of a resource. -/
inductive Ev where
  | start (r : Res)
  | stop (r : Res)
deriving DecidableEq

/-- An oracle deciding which lifecycle calls succeed and which raise. -/
structure Oracle where
  startOk : Res → Bool
  stopOk : Res → Bool

/-- Whether the oracle lets a given call succeed. -/
def callOk (o : Oracle) : Ev → Bool
  | .start r => o.startOk r
  | .stop r => o.stopOk r

/-- Runs a straight-line sequence of awaited calls with Python exception
semantics and no try/except, as in the lifespan body of app.py: each call
is attempted in order; the first call that raises aborts the sequence and
the exception propagates. Returns the ordered trace of attempted calls and
the call whose exception propagated, if any. -/
def runCalls (o : Oracle) : List Ev → List Ev × Option Ev
  | [] => ([], none)
  | c :: cs =>
    if callOk o c then
      let p := runCalls o cs
      (c :: p.1, p.2)
    else
      ([c], some c)

/-- The startup sequence of the lifespan body (app.py lines 48 to 56):
await init_db(), await init_redis(settings.redis_url),
await init_agent_pool(), in that textual order. -/
def startupCalls : List Ev := [.start .db, .start .redis, .start .agentPool]

/-- The shutdown sequence of the lifespan body (app.py lines 66 to 74):
await close_db(), await close_redis(), await shutdown_agent_pool(), in
that textual order. -/
def shutdownCalls : List Ev := [.stop .db, .stop .redis, .stop .agentPool]

/-- The startup phase of lifespan: the ordered trace of start calls
attempted and the call whose exception propagated, if any. -/
def lifespanStartup (o : Oracle) : List Ev × Option Ev := runCalls o startupCalls

/-- The shutdown phase of lifespan: the ordered trace of stop calls
attempted and the call whose exception propagated, if any. -/
def lifespanShutdown (o : Oracle) : List Ev × Option Ev := runCalls o shutdownCalls

/-- An oracle under which every start and every stop succeeds. -/
def allOkOracle : Oracle := ⟨fun _ => true, fun _ => true⟩

/-- An oracle under which init_db succeeds and init_redis raises. -/
def redisStartFails : Oracle :=
  ⟨fun r => match r with | .redis => false | _ => true, fun _ => true⟩

/-- C1 counterexample: when every resource started successfully, the
shutdown phase of the code stops the database first, then Redis, then the
agent pool — the same order as startup, not the reverse order the claim
states (agent pool first, then Redis, then database). -/
theorem shutdown_not_reverse_order :
    (lifespanShutdown allOkOracle).1 = [Ev.stop .db, Ev.stop .redis, Ev.stop .agentPool] ∧
    (lifespanShutdown allOkOracle).1 ≠ [Ev.stop .agentPool, Ev.stop .redis, Ev.stop .db] := by
  decide

/-- C1 (amended): for every oracle under which no stop raises, the
shutdown phase invokes each stop exactly once, in the same order as
startup: database first, then Redis, then the agent pool, and no
exception propagates. -/
theorem shutdown_each_stop_once_start_order (o : Oracle)
    (h : ∀ r, o.stopOk r = true) :
    lifespanShutdown o = ([Ev.stop .db, Ev.stop .redis, Ev.stop .agentPool], none) := by
  simp [lifespanShutdown, shutdownCalls, runCalls, callOk, h]

/-- Witness for the amended C1 theorem at the all-success oracle. -/
theorem shutdown_each_stop_once_start_order_witness :
    lifespanShutdown allOkOracle = ([Ev.stop .db, Ev.stop .redis, Ev.stop .agentPool], none) :=
  shutdown_each_stop_once_start_order allOkOracle (fun _ => rfl)

/-- C2 counterexample: when init_db succeeds and init_redis raises, the
startup error propagates and the agent pool is never started, but the
database is not closed before the error propagates: the trace contains no
stop call at all, contradicting the claim that the database is closed
first. -/
theorem startup_failure_no_rollback :
    lifespanStartup redisStartFails = ([Ev.start .db, Ev.start .redis], some (Ev.start .redis)) ∧
    Ev.stop .db ∉ (lifespanStartup redisStartFails).1 := by
  decide

/-- C2 (amended): for every oracle under which init_db succeeds and
init_redis raises, the startup exception propagates naming the Redis
start, the agent pool is never started, and no previously started
resource is stopped: the trace is exactly the database start followed by
the failed Redis start, with no stop call. -/
theorem startup_failure_propagates_without_unwind (o : Oracle)
    (hdb : o.startOk .db = true) (hredis : o.startOk .redis = false) :
    lifespanStartup o = ([Ev.start .db, Ev.start .redis], some (Ev.start .redis)) := by
  simp [lifespanStartup, startupCalls, runCalls, callOk, hdb, hredis]

/-- Witness for the amended C2 theorem at the oracle where only the Redis
start raises. -/
theorem startup_failure_propagates_without_unwind_witness :
    lifespanStartup redisStartFails = ([Ev.start .db, Ev.start .redis], some (Ev.start .redis)) :=
  startup_failure_propagates_without_unwind redisStartFails rfl rfl

/-! ## Configuration (config.py, Settings) -/

/-- Whether the character list pat is an initial segment of the character
list s, matching character by character. -/
def chStarts : List Char → List Char → Bool
  | _, [] => true
  | [], _ :: _ => false
  | c :: cs, p :: ps => (c = p) && chStarts cs ps

/-- Python str.startswith with a single string argument. -/
def pyStartswith (s pat : String) : Bool := chStarts s.data pat.data

/-- Python str.split on a comma, over character lists: every comma is a
separator and empty pieces are kept, so the result is always nonempty. -/
def splitCommaCh : List Char → List (List Char)
  | [] => [[]]
  | c :: rest =>
    match splitCommaCh rest with
    | [] => [[]]
    | h :: t => if c = ',' then [] :: h :: t else (c :: h) :: t

/-- Joining a list of character lists with a comma between consecutive
pieces; the left inverse of splitCommaCh. -/
def joinCommaCh : List (List Char) → List Char
  | [] => []
  | [p] => p
  | p :: ps => p ++ ',' :: joinCommaCh ps

/-- The raw runtime value handed to the cors_origins validator before
coercion: either a single string or already a list of strings. -/
inductive CorsRaw where
  | str (s : String)
  | listVal (v : List String)
deriving DecidableEq

/-- The cors_origins pre-validator of config.py (lines 90 to 94): a string
is split on commas, any other value is returned as-is. -/
def parse_cors_origins : CorsRaw → List String
  | .str s => (splitCommaCh s.data).map (fun cs => String.mk cs)
  | .listVal v => v

/-- The database_url validator of config.py (lines 96 to 100): the value
must start with postgresql:// or postgres://, otherwise a ValueError is
raised. -/
def validate_database_url (v : String) : Except String String :=
  if pyStartswith v "postgresql://" || pyStartswith v "postgres://" then .ok v
  else .error "Database URL must be a PostgreSQL connection string"

/-- The redis_url validator of config.py (lines 102 to 106): the value
must start with redis://, otherwise a ValueError is raised. -/
def validate_redis_url (v : String) : Except String String :=
  if pyStartswith v "redis://" then .ok v
  else .error "Redis URL must start with redis://"

/-- The Settings record of config.py, one field per pydantic field, in
declaration order. Python str becomes String, int becomes Int, bool
becomes Bool, Optional str becomes Option String. -/
structure Settings where
  app_name : String
  app_version : String
  environment : String
  debug : Bool
  secret_key : String
  jwt_secret : String
  jwt_algorithm : String
  jwt_expiration_minutes : Int
  host : String
  port : Int
  workers : Int
  reload : Bool
  database_url : String
  database_pool_size : Int
  database_max_overflow : Int
  database_pool_timeout : Int
  database_echo : Bool
  redis_url : String
  redis_pool_size : Int
  redis_decode_responses : Bool
  aws_region : String
  aws_account_id : Option String
  aws_access_key_id : Option String
  aws_secret_access_key : Option String
  aws_endpoint_url : Option String
  s3_bucket_assets : String
  s3_bucket_backups : String
  anthropic_api_key : Option String
  openai_api_key : Option String
  agent_timeout : Int
  agent_max_retries : Int
  agent_retry_delay : Int
  new_relic_license_key : Option String
  new_relic_app_name : String
  datadog_api_key : Option String
  sentry_dsn : Option String
  enable_agent_logging : Bool
  enable_performance_monitoring : Bool
  enable_rate_limiting : Bool
  rate_limit_requests : Int
  rate_limit_period : Int
  cors_origins : List String
  cors_allow_credentials : Bool
  cors_allow_methods : List String
  cors_allow_headers : List String
deriving DecidableEq

/-- The environment input to Settings construction: each pydantic field
may be supplied (already parsed to its declared type, as pydantic does) or
absent. Fields declared Optional in the source carry the supplied Option
String value directly. -/
structure EnvInput where
  app_name : Option String := none
  app_version : Option String := none
  environment : Option String := none
  debug : Option Bool := none
  secret_key : Option String := none
  jwt_secret : Option String := none
  jwt_algorithm : Option String := none
  jwt_expiration_minutes : Option Int := none
  host : Option String := none
  port : Option Int := none
  workers : Option Int := none
  reload : Option Bool := none
  database_url : Option String := none
  database_pool_size : Option Int := none
  database_max_overflow : Option Int := none
  database_pool_timeout : Option Int := none
  database_echo : Option Bool := none
  redis_url : Option String := none
  redis_pool_size : Option Int := none
  redis_decode_responses : Option Bool := none
  aws_region : Option String := none
  aws_account_id : Option String := none
  aws_access_key_id : Option String := none
  aws_secret_access_key : Option String := none
  aws_endpoint_url : Option String := none
  s3_bucket_assets : Option String := none
  s3_bucket_backups : Option String := none
  anthropic_api_key : Option String := none
  openai_api_key : Option String := none
  agent_timeout : Option Int := none
  agent_max_retries : Option Int := none
  agent_retry_delay : Option Int := none
  new_relic_license_key : Option String := none
  new_relic_app_name : Option String := none
  datadog_api_key : Option String := none
  sentry_dsn : Option String := none
  enable_agent_logging : Option Bool := none
  enable_performance_monitoring : Option Bool := none
  enable_rate_limiting : Option Bool := none
  rate_limit_requests : Option Int := none
  rate_limit_period : Option Int := none
  cors_origins : Option CorsRaw := none
  cors_allow_credentials : Option Bool := none
  cors_allow_methods : Option (List String) := none
  cors_allow_headers : Option (List String) := none

/-- Construction of the Settings object from environment input, as
pydantic performs it for config.py: the four fields declared with
Field(...) and no default (secret_key, jwt_secret, database_url,
redis_url) are required and their absence fails validation; the
database_url and redis_url validators run on the supplied values; the
cors_origins pre-validator coerces its raw value; every other field falls
back to its declared default when absent. A validation failure means no
Settings value is produced. -/
def mkSettings (e : EnvInput) : Except String Settings :=
  match e.secret_key with
  | none => .error "SECRET_KEY: field required"
  | some secret_key =>
  match e.jwt_secret with
  | none => .error "JWT_SECRET: field required"
  | some jwt_secret =>
  match e.database_url with
  | none => .error "DATABASE_URL: field required"
  | some rawDb =>
  match validate_database_url rawDb with
  | .error m => .error m
  | .ok database_url =>
  match e.redis_url with
  | none => .error "REDIS_URL: field required"
  | some rawRedis =>
  match validate_redis_url rawRedis with
  | .error m => .error m
  | .ok redis_url =>
  .ok {
    app_name := e.app_name.getD "CLOS Orchestrator"
    app_version := e.app_version.getD "1.0.0"
    environment := e.environment.getD "development"
    debug := e.debug.getD false
    secret_key := secret_key
    jwt_secret := jwt_secret
    jwt_algorithm := e.jwt_algorithm.getD "HS256"
    jwt_expiration_minutes := e.jwt_expiration_minutes.getD 30
    host := e.host.getD "0.0.0.0"
    port := e.port.getD 8000
    workers := e.workers.getD 4
    reload := e.reload.getD false
    database_url := database_url
    database_pool_size := e.database_pool_size.getD 20
    database_max_overflow := e.database_max_overflow.getD 40
    database_pool_timeout := e.database_pool_timeout.getD 30
    database_echo := e.database_echo.getD false
    redis_url := redis_url
    redis_pool_size := e.redis_pool_size.getD 10
    redis_decode_responses := e.redis_decode_responses.getD true
    aws_region := e.aws_region.getD "us-east-1"
    aws_account_id := e.aws_account_id
    aws_access_key_id := e.aws_access_key_id
    aws_secret_access_key := e.aws_secret_access_key
    aws_endpoint_url := e.aws_endpoint_url
    s3_bucket_assets := e.s3_bucket_assets.getD "candlefish-assets"
    s3_bucket_backups := e.s3_bucket_backups.getD "candlefish-backups"
    anthropic_api_key := e.anthropic_api_key
    openai_api_key := e.openai_api_key
    agent_timeout := e.agent_timeout.getD 300
    agent_max_retries := e.agent_max_retries.getD 3
    agent_retry_delay := e.agent_retry_delay.getD 5
    new_relic_license_key := e.new_relic_license_key
    new_relic_app_name := e.new_relic_app_name.getD "CLOS Orchestrator"
    datadog_api_key := e.datadog_api_key
    sentry_dsn := e.sentry_dsn
    enable_agent_logging := e.enable_agent_logging.getD true
    enable_performance_monitoring := e.enable_performance_monitoring.getD false
    enable_rate_limiting := e.enable_rate_limiting.getD true
    rate_limit_requests := e.rate_limit_requests.getD 100
    rate_limit_period := e.rate_limit_period.getD 60
    cors_origins :=
      (e.cors_origins.map parse_cors_origins).getD
        ["http://localhost:3000", "http://localhost:8000"]
    cors_allow_credentials := e.cors_allow_credentials.getD true
    cors_allow_methods := e.cors_allow_methods.getD ["*"]
    cors_allow_headers := e.cors_allow_headers.getD ["*"]
  }

/-- Whether Settings construction produced a Settings value. -/
def resolvedOk : Except String Settings → Bool
  | .ok _ => true
  | .error _ => false

/-- The database pool size of a produced Settings value, if one was
produced. -/
def resolvedPoolSize : Except String Settings → Option Int
  | .ok s => some s.database_pool_size
  | .error _ => none

theorem splitCommaCh_ne_nil (l : List Char) : splitCommaCh l ≠ [] := by
  induction l with
  | nil => simp [splitCommaCh]
  | cons c rest ih =>
    rcases h : splitCommaCh rest with _ | ⟨hh, t⟩
    · exact absurd h ih
    · unfold splitCommaCh
      rw [h]
      show ¬(if c = ',' then [] :: hh :: t else (c :: hh) :: t) = []
      split <;> simp

theorem joinCommaCh_splitCommaCh (l : List Char) : joinCommaCh (splitCommaCh l) = l := by
  induction l with
  | nil => rfl
  | cons c rest ih =>
    rcases h : splitCommaCh rest with _ | ⟨hh, t⟩
    · exact absurd h (splitCommaCh_ne_nil rest)
    · rw [h] at ih
      unfold splitCommaCh
      rw [h]
      show joinCommaCh (if c = ',' then [] :: hh :: t else (c :: hh) :: t) = c :: rest
      by_cases hc : c = ','
      · subst hc
        rw [if_pos rfl]
        show [] ++ ',' :: joinCommaCh (hh :: t) = ',' :: rest
        simp [ih]
      · rw [if_neg hc]
        cases t with
        | nil =>
          show c :: hh = c :: rest
          simp only [joinCommaCh] at ih
          simp [ih]
        | cons x xs =>
          show (c :: hh) ++ ',' :: joinCommaCh (x :: xs) = c :: rest
          simp only [joinCommaCh] at ih ⊢
          simp [← ih]

theorem splitCommaCh_no_comma (l : List Char) :
    ∀ p ∈ splitCommaCh l, ',' ∉ p := by
  induction l with
  | nil =>
    intro p hp
    simp [splitCommaCh] at hp
    subst hp
    simp
  | cons c rest ih =>
    intro p hp
    rcases h : splitCommaCh rest with _ | ⟨hh, t⟩
    · exact absurd h (splitCommaCh_ne_nil rest)
    · rw [h] at ih
      unfold splitCommaCh at hp
      rw [h] at hp
      have hp2 : p ∈ (if c = ',' then [] :: hh :: t else (c :: hh) :: t) := hp
      by_cases hc : c = ','
      · rw [if_pos hc, List.mem_cons] at hp2
        rcases hp2 with hp2 | hp2
        · subst hp2; simp
        · exact ih p hp2
      · rw [if_neg hc, List.mem_cons] at hp2
        rcases hp2 with hp2 | hp2
        · subst hp2
          intro hmem
          rw [List.mem_cons] at hmem
          rcases hmem with hmem | hmem
          · exact hc hmem.symm
          · exact ih hh (by simp) hmem
        · exact ih p (by simp [hp2])

/-- The empty environment: no field supplied. -/
def envEmpty : EnvInput := {}

/-- An environment whose database URL uses a rejected scheme. -/
def envBadDb : EnvInput :=
  { secret_key := some "k", jwt_secret := some "j",
    database_url := some "mysql://h", redis_url := some "redis://c" }

/-- An environment whose Redis URL uses a rejected scheme. -/
def envBadRedis : EnvInput :=
  { secret_key := some "k", jwt_secret := some "j",
    database_url := some "postgresql://db", redis_url := some "http://h" }

/-- An environment with valid required fields that sets the database pool
size, the database pool timeout, the agent timeout and the agent retry
count all to the integer v. -/
def envNum (v : Int) : EnvInput :=
  { secret_key := some "k", jwt_secret := some "j",
    database_url := some "postgresql://db", redis_url := some "redis://cache",
    database_pool_size := some v, database_pool_timeout := some v,
    agent_timeout := some v, agent_max_retries := some v }

/-- C5: whenever the supplied database URL starts with neither
postgresql:// nor postgres://, or the supplied Redis URL does not start
with redis://, Settings construction fails and no Settings value, partial
or complete, is produced. -/
theorem invalid_url_scheme_never_resolves :
    (∀ (e : EnvInput) (db : String), e.database_url = some db →
      pyStartswith db "postgresql://" = false →
      pyStartswith db "postgres://" = false →
      resolvedOk (mkSettings e) = false) ∧
    (∀ (e : EnvInput) (r : String), e.redis_url = some r →
      pyStartswith r "redis://" = false →
      resolvedOk (mkSettings e) = false) := by
  constructor
  · intro e db hdb h1 h2
    rcases hsk : e.secret_key with _ | sk <;>
    rcases hjs : e.jwt_secret with _ | js <;>
      simp [mkSettings, hsk, hjs, hdb, validate_database_url, h1, h2, resolvedOk]
  · intro e r hr h1
    rcases hsk : e.secret_key with _ | sk <;>
    rcases hjs : e.jwt_secret with _ | js <;>
    rcases hdb : e.database_url with _ | db <;>
      simp [mkSettings, hsk, hjs, hdb, hr, resolvedOk]
    rcases hv : validate_database_url db with m | okdb <;>
      simp [hv, validate_redis_url, h1, resolvedOk]

/-- Witness for the C5 theorem: a mysql scheme in the database URL and an
http scheme in the Redis URL each make construction fail. -/
theorem invalid_url_scheme_never_resolves_witness :
    resolvedOk (mkSettings envBadDb) = false ∧
    resolvedOk (mkSettings envBadRedis) = false :=
  ⟨invalid_url_scheme_never_resolves.1 envBadDb "mysql://h" rfl (by decide) (by decide),
   invalid_url_scheme_never_resolves.2 envBadRedis "http://h" rfl (by decide)⟩

/-- C6: whenever any of the four required fields (secret_key, jwt_secret,
database_url, redis_url) is absent from the environment, Settings
construction fails and no Settings value is produced. -/
theorem missing_required_field_never_resolves (e : EnvInput)
    (h : e.secret_key = none ∨ e.jwt_secret = none ∨
      e.database_url = none ∨ e.redis_url = none) :
    resolvedOk (mkSettings e) = false := by
  rcases hsk : e.secret_key with _ | sk <;>
  rcases hjs : e.jwt_secret with _ | js <;>
  rcases hdb : e.database_url with _ | db <;>
  rcases hr : e.redis_url with _ | r <;>
    simp_all [mkSettings, resolvedOk]
  rcases hv : validate_database_url db with m | okdb <;> simp [hv]

/-- Witness for the C6 theorem at the empty environment. -/
theorem missing_required_field_never_resolves_witness :
    resolvedOk (mkSettings envEmpty) = false :=
  missing_required_field_never_resolves envEmpty (Or.inl rfl)

/-- C7 counterexample: an environment setting the database pool size to
the negative integer minus one is accepted: construction succeeds and the
produced Settings value carries the negative pool size, so resolution
neither fails on a negative numeric field nor returns only non-negative
values. -/
theorem negative_pool_size_accepted :
    resolvedOk (mkSettings (envNum (-1))) = true ∧
    resolvedPoolSize (mkSettings (envNum (-1))) = some (-1) ∧
    (-1 : Int) < 0 := by
  decide

/-- C7 (amended): the integer configuration fields carry no sign
constraint: for every integer v, including every negative one, an
environment supplying v for the database pool size, the database pool
timeout, the agent timeout and the agent retry count resolves
successfully to a Settings value carrying exactly v in those fields. -/
theorem numeric_fields_accept_any_integer (v : Int) :
    ∃ s, mkSettings (envNum v) = Except.ok s ∧
      s.database_pool_size = v ∧ s.database_pool_timeout = v ∧
      s.agent_timeout = v ∧ s.agent_max_retries = v :=
  ⟨_, rfl, rfl, rfl, rfl, rfl⟩

/-- C8 counterexample: the cors_origins pre-validator applied to the
string a,a returns the two-element list with the element a twice — the
result is not duplicate-free, so it is not an ordered set. -/
theorem cors_split_keeps_duplicates :
    parse_cors_origins (.str "a,a") = ["a", "a"] ∧
    ¬ (parse_cors_origins (.str "a,a")).Nodup := by
  decide

/-- C8 (amended): for every cors_origins input given as a single string,
the pre-validator splits it on commas into an ordered list that may
contain duplicates: no returned piece contains a comma, and rejoining the
pieces with commas reconstructs the input exactly (so order and
multiplicity are preserved); every input not given as a string is accepted
as-is. -/
theorem cors_split_ordered_list_roundtrip :
    (∀ s : String,
      joinCommaCh ((parse_cors_origins (.str s)).map String.data) = s.data ∧
      ∀ p ∈ (parse_cors_origins (.str s)).map String.data, ',' ∉ p) ∧
    (∀ v : List String, parse_cors_origins (.listVal v) = v) := by
  have hdata : ∀ s : String,
      (parse_cors_origins (.str s)).map String.data = splitCommaCh s.data := by
    intro s
    have hcomp : (String.data ∘ fun cs => String.mk cs) = id := rfl
    simp [parse_cors_origins, List.map_map, hcomp]
  refine ⟨fun s => ⟨?_, ?_⟩, fun v => rfl⟩
  · rw [hdata, joinCommaCh_splitCommaCh]
  · rw [hdata]
    exact splitCommaCh_no_comma s.data

/-- Witness for the C8 amended theorem at the concrete string a,b and the
concrete list containing x. -/
theorem cors_split_ordered_list_roundtrip_witness :
    joinCommaCh ((parse_cors_origins (.str "a,b")).map String.data) = "a,b".data ∧
    ',' ∉ "a".data ∧
    parse_cors_origins (.listVal ["x"]) = ["x"] :=
  ⟨(cors_split_ordered_list_roundtrip.1 "a,b").1,
   (cors_split_ordered_list_roundtrip.1 "a,b").2 "a".data (by decide),
   cors_split_ordered_list_roundtrip.2 ["x"]⟩

/-- C10: the cors_origins pre-validator applied to the empty string
returns the one-element list containing the empty string, and for every
string input the result is never the empty list. -/
theorem cors_empty_string_singleton :
    parse_cors_origins (.str "") = [""] ∧
    ∀ s : String, (parse_cors_origins (.str s)).isEmpty = false := by
  refine ⟨by decide, fun s => ?_⟩
  have h : parse_cors_origins (.str s) ≠ [] := by
    simp [parse_cors_origins]
    exact splitCommaCh_ne_nil s.data
  cases hp : parse_cors_origins (.str s) with
  | nil => exact absurd hp h
  | cons a l => rfl

/-! ## Application assembly (app.py, create_app) -/

/-- Settings.is_production of config.py (lines 108 to 111): exact string
equality of the environment field with production. -/
def Settings.is_production (s : Settings) : Bool := s.environment == "production"

/-- Settings.is_development of config.py (lines 113 to 116): exact string
equality of the environment field with development. -/
def Settings.is_development (s : Settings) : Bool := s.environment == "development"

/-- The observable data of an exception reaching the global handler:
str(exc) and the name of type(exc). -/
structure ExcInfo where
  msg : String
  tyName : String
deriving DecidableEq

/-- The data of the JSONResponse built by the global exception handler:
the status code, the detail entry of the body, and the optional type
entry of the body. -/
structure JsonResp where
  status_code : Nat
  detail : String
  type : Option String
deriving DecidableEq

/-- The global exception handler of create_app (app.py lines 128 to 149):
when the settings are production, a fixed 500 response whose body is the
single detail entry Internal server error; otherwise a 500 response whose
body carries str(exc) as detail and the exception type name as type. -/
def global_exception_handler (s : Settings) (exc : ExcInfo) : JsonResp :=
  if s.is_production then
    { status_code := 500, detail := "Internal server error", type := none }
  else
    { status_code := 500, detail := exc.msg, type := some exc.tyName }

/-- The docs endpoint configuration passed to the FastAPI constructor in
create_app (app.py lines 85 to 87). -/
structure AppDocs where
  docs_url : Option String
  redoc_url : Option String
  openapi_url : Option String
deriving DecidableEq

/-- The docs, redoc and openapi URLs chosen by create_app: each enabled
exactly when the settings are not production. -/
def appDocs (s : Settings) : AppDocs :=
  { docs_url := if !s.is_production then some "/docs" else none,
    redoc_url := if !s.is_production then some "/redoc" else none,
    openapi_url := if !s.is_production then some "/openapi.json" else none }

/-- The middleware classes registered by create_app. -/
inductive Mw where
  | cors
  | trustedHost
  | logging
  | metrics
  | rateLimit
deriving DecidableEq

/-- The sequence of add_middleware calls in create_app (app.py lines 92
to 114): CORSMiddleware, then TrustedHostMiddleware, then
LoggingMiddleware, then MetricsMiddleware, then, exactly when rate
limiting is enabled, RateLimitMiddleware. -/
def registrationOrder (enable_rate_limiting : Bool) : List Mw :=
  [.cors, .trustedHost, .logging, .metrics] ++
    (if enable_rate_limiting then [.rateLimit] else [])

/-- Modelled from the spec: the framework rule quoted by the claim, that
each add_middleware call prepends its middleware so later-registered
middleware runs outermost; a request therefore traverses the registered
middleware in the reverse of registration order before reaching the
router. The framework itself (Starlette) is not part of the visible
source. -/
def executionOrder (enable_rate_limiting : Bool) : List Mw :=
  (registrationOrder enable_rate_limiting).reverse

/-- A concrete Settings value carrying the source defaults and
placeholder required fields, parametrized by the environment string. -/
def sampleSettings (environment : String) : Settings :=
  { app_name := "CLOS Orchestrator", app_version := "1.0.0",
    environment := environment, debug := false, secret_key := "k",
    jwt_secret := "j", jwt_algorithm := "HS256", jwt_expiration_minutes := 30,
    host := "0.0.0.0", port := 8000, workers := 4, reload := false,
    database_url := "postgresql://db", database_pool_size := 20,
    database_max_overflow := 40, database_pool_timeout := 30,
    database_echo := false, redis_url := "redis://cache",
    redis_pool_size := 10, redis_decode_responses := true,
    aws_region := "us-east-1", aws_account_id := none,
    aws_access_key_id := none, aws_secret_access_key := none,
    aws_endpoint_url := none, s3_bucket_assets := "candlefish-assets",
    s3_bucket_backups := "candlefish-backups", anthropic_api_key := none,
    openai_api_key := none, agent_timeout := 300, agent_max_retries := 3,
    agent_retry_delay := 5, new_relic_license_key := none,
    new_relic_app_name := "CLOS Orchestrator", datadog_api_key := none,
    sentry_dsn := none, enable_agent_logging := true,
    enable_performance_monitoring := false, enable_rate_limiting := true,
    rate_limit_requests := 100, rate_limit_period := 60,
    cors_origins := ["http://localhost:3000", "http://localhost:8000"],
    cors_allow_credentials := true, cors_allow_methods := ["*"],
    cors_allow_headers := ["*"] }

/-- C3: when the settings are production the handler returns the fixed
500 response with body detail Internal server error and no type entry,
identical for any two exceptions and hence independent of the exception
message and type name; when the settings are not production the response
carries both str(exc) and the exception type name. -/
theorem exception_handler_redaction (s : Settings) :
    (s.is_production = true →
      (∀ exc, global_exception_handler s exc =
        { status_code := 500, detail := "Internal server error", type := none }) ∧
      ∀ e1 e2, global_exception_handler s e1 = global_exception_handler s e2) ∧
    (s.is_production = false →
      ∀ exc, global_exception_handler s exc =
        { status_code := 500, detail := exc.msg, type := some exc.tyName }) := by
  constructor
  · intro h
    constructor
    · intro exc
      simp [global_exception_handler, h]
    · intro e1 e2
      simp [global_exception_handler, h]
  · intro h
    intro exc
    simp [global_exception_handler, h]

/-- Witness for the C3 theorem: a production and a development settings
value, each with a concrete exception. -/
theorem exception_handler_redaction_witness :
    global_exception_handler (sampleSettings "production") ⟨"secret detail", "RuntimeError"⟩ =
      { status_code := 500, detail := "Internal server error", type := none } ∧
    global_exception_handler (sampleSettings "development") ⟨"secret detail", "RuntimeError"⟩ =
      { status_code := 500, detail := "secret detail", type := some "RuntimeError" } :=
  ⟨((exception_handler_redaction (sampleSettings "production")).1 (by decide)).1 _,
   (exception_handler_redaction (sampleSettings "development")).2 (by decide) _⟩

/-- C4 counterexample: with rate limiting enabled, the execution order
determined by the registration sequence of create_app together with the
later-registered-runs-outermost rule is not the claimed order host
validation, CORS, logging, metrics, rate limiting: rate limiting comes
first and CORS last. -/
theorem middleware_order_not_as_claimed :
    executionOrder true ≠ [Mw.trustedHost, .cors, .logging, .metrics, .rateLimit] ∧
    executionOrder true = [Mw.rateLimit, .metrics, .logging, .trustedHost, .cors] := by
  decide

/-- C4 (amended): every request traverses the registered middleware in
the reverse of registration order: with rate limiting enabled, rate
limiting first, then metrics, then logging, then host validation, then
CORS, and only then router dispatch; with rate limiting disabled, the
same order without the rate limiting stage. -/
theorem middleware_execution_order :
    executionOrder true = [Mw.rateLimit, .metrics, .logging, .trustedHost, .cors] ∧
    executionOrder false = [Mw.metrics, .logging, .trustedHost, .cors] := by
  decide

/-- C9: the production test is exact string equality: for every Settings
value whose environment is any string other than exactly production, the
global exception handler returns the verbose response carrying the
exception message and type name, and the docs, redoc and openapi
endpoints are all enabled. -/
theorem non_production_exact_equality (s : Settings)
    (h : s.environment ≠ "production") :
    (∀ exc, global_exception_handler s exc =
      { status_code := 500, detail := exc.msg, type := some exc.tyName }) ∧
    appDocs s =
      { docs_url := some "/docs", redoc_url := some "/redoc",
        openapi_url := some "/openapi.json" } := by
  have hb : s.is_production = false := by
    show (s.environment == "production") = false
    exact beq_eq_false_iff_ne.mpr h
  constructor
  · intro exc
    simp [global_exception_handler, hb]
  · simp [appDocs, hb]

/-- Witness for the C9 theorem at a staging settings value. -/
theorem non_production_exact_equality_witness :
    global_exception_handler (sampleSettings "staging") ⟨"boom", "ValueError"⟩ =
      { status_code := 500, detail := "boom", type := some "ValueError" } ∧
    appDocs (sampleSettings "staging") =
      { docs_url := some "/docs", redoc_url := some "/redoc",
        openapi_url := some "/openapi.json" } :=
  ⟨(non_production_exact_equality (sampleSettings "staging") (by decide)).1 _,
   (non_production_exact_equality (sampleSettings "staging") (by decide)).2⟩

end Clos
